import Mathlib

/-!
Verification of the F9 JUCE Resampler core against its specification.

The definitions below are a shallow embedding of the C++ sources under
Source/ (MainComponent.cpp, AppState.h).  Audio sample values are modelled
as rationals: the operations the claims concern (copying, comparison,
absolute value, integer division of counts) are exact in IEEE floats as
well, so no rounding behaviour is lost.  Machine ints are modelled as Int
(C++ int division truncates toward zero, which is Int.tdiv).
-/

namespace F9

/-- Model of juce::AudioBuffer of float: a channel count, a frame count and a
total sample function (only indices ch < numChannels, i < numSamples are
meaningful). -/
structure AudioBuffer where
  numChannels : Nat
  numSamples : Nat
  sample : Nat → Nat → ℚ

/-- Embedding of MainComponent::trimLatency (MainComponent.cpp:1426-1471).
latencySamples is interleaved; latencyFrames = latencySamples / numChannels
with C++ truncating division (Int.tdiv); the output has exactly originalLength frames,
is cleared, and receives framesToCopy frames from startFrame when
framesToCopy > 0 and startFrame >= 0. -/
def trimLatency (captured : AudioBuffer) (latencySamples : Int)
    (originalLength : Nat) : AudioBuffer :=
  let numChannels : Int := captured.numChannels
  let capturedFrames : Int := captured.numSamples
  let latencyFrames : Int := Int.tdiv latencySamples numChannels
  let startFrame : Int := latencyFrames
  let framesToCopy : Int :=
    if startFrame + (originalLength : Int) > capturedFrames then
      max 0 (capturedFrames - startFrame)
    else (originalLength : Int)
  { numChannels := captured.numChannels
    numSamples := originalLength
    sample := fun ch i =>
      if 0 < framesToCopy ∧ 0 ≤ startFrame ∧ (i : Int) < framesToCopy then
        captured.sample ch (startFrame.toNat + i)
      else 0 }

/-- Guarded version of trimLatency: C++ evaluates latencySamples / numChannels
with no zero check, so a zero-channel buffer is an undefined division; the
checked variant makes that failure explicit as none. -/
def trimLatencyChecked (captured : AudioBuffer) (latencySamples : Int)
    (originalLength : Nat) : Option AudioBuffer :=
  if captured.numChannels = 0 then none
  else some (trimLatency captured latencySamples originalLength)

/-- Embedding of ProcessingSettings::getRecordingLength (AppState.h:240-243). -/
def getRecordingLength (sourceFileSamples latencySamples : Int) : Int :=
  sourceFileSamples + latencySamples + latencySamples * 4

/-- Recording length as computed by MainComponent::loadNextFileForProcessing
(MainComponent.cpp:1183-1196): latencyFrames = measuredLatencySamples / 2
(stereo recording path, truncating int division), then the safety formula. -/
def processingRecordingFrames (sourceFrames measuredLatencySamples : Int) : Int :=
  let inputChannelCount : Int := 2
  let latencyFrames : Int := Int.tdiv measuredLatencySamples inputChannelCount
  sourceFrames + latencyFrames + latencyFrames * 4

/-- Iteration order of the double loop in findPeakPosition: channels outer,
frames inner; each visited sample is tagged with its frame index. -/
def samplesList (buffer : AudioBuffer) : List (Nat × ℚ) :=
  (List.range buffer.numChannels).flatMap fun ch =>
    (List.range buffer.numSamples).map fun i => (i, buffer.sample ch i)

/-- The running (maxValue, maxPosition) accumulator of findPeakPosition:
a strictly larger absolute value updates both. -/
def scanPeak : List (Nat × ℚ) → ℚ × Int → ℚ × Int
  | [], acc => acc
  | (i, v) :: rest, (mv, mp) =>
      scanPeak rest (if |v| > mv then (|v|, (i : Int)) else (mv, mp))

/-- Embedding of MainComponent::findPeakPosition (MainComponent.cpp:1560-1585):
maxValue starts at 0 and maxPosition at -1; after the scan the position is
returned only if maxValue > threshold. -/
def findPeakPosition (buffer : AudioBuffer) (threshold : ℚ) : Int :=
  let acc := scanPeak (samplesList buffer) (0, -1)
  if acc.1 > threshold then acc.2 else -1

/-- The maximum absolute sample of a buffer (0 for an empty buffer); the
mathematical quantity the peak-detection claims are stated in terms of. -/
def maxAbs (buffer : AudioBuffer) : ℚ :=
  (samplesList buffer).foldl (fun a p => max a |p.2|) 0

/-- A concrete buffer for witnesses: every sample encodes its channel and
frame index, so copies are traceable. -/
def demoBuf (c n : Nat) : AudioBuffer :=
  ⟨c, n, fun ch i => (ch * 10000 + i : ℚ)⟩

/-- A buffer with no channels at all (an empty juce::AudioBuffer). -/
def zeroChannelBuf : AudioBuffer := ⟨0, 100, fun _ _ => 0⟩

/-- A buffer holding a single silent sample. -/
def silentBuf : AudioBuffer := ⟨1, 1, fun _ _ => 0⟩

/-- A stereo buffer with one clear peak at channel 1, frame 2. -/
def peakBuf : AudioBuffer :=
  ⟨2, 3, fun ch i => if ch = 1 ∧ i = 2 then 9 / 10 else 0⟩

/-- Processing status of a queued file (AppState.h:23-30). -/
inductive PStatus where
  | pending
  | processing
  | completed
  | failed
  | invalidSampleRate
deriving DecidableEq, Inhabited

/-- One queued audio file.  Facts the code derives from the file on disk
(sample-rate validity, decodability, frame count, parent-directory
comparison with the output folder) are carried as fields, since file I/O is
outside the embedding. -/
structure FileEntry where
  id : String
  status : PStatus
  isSelected : Bool
  validRate : Bool
  loadable : Bool
  sourceFrames : Nat
  parentIsOutputFolder : Bool
deriving DecidableEq, Inhabited

/-- Filesystem answers consulted by validateOutputFolder
(MainComponent.cpp:1269-1300). -/
structure FSEnv where
  outputFolderExists : Bool
  outputFolderWritable : Bool
deriving DecidableEq

/-- The session state: ProcessingSettings and AppState fields
(AppState.h:183-314) together with MainComponent's cursors and one-shot
flags (MainComponent.h:140-159).  Float-only fields with no control-flow
role in the claims (sinePhase, noise-floor dB, progress fractions) are not
modelled; sampleRate is a Nat since devices negotiate integral rates. -/
structure MCState where
  sampleRate : Nat
  bufferSize : Int
  measuredLatencySamples : Int
  lastBufferSizeWhenMeasured : Int
  hasNoiseFloorMeasurement : Bool
  silenceBetweenFilesMs : Nat
  outputFolderPath : String
  selectedDeviceID : String
  hasInputPair : Bool
  hasOutputPair : Bool
  files : List FileEntry
  currentFileIndex : Int
  currentPreviewFileIndex : Int
  previewPlaylist : List String
  isProcessing : Bool
  isMeasuringLatency : Bool
  isPreviewing : Bool
  isTestingHardware : Bool
  currentPlaybackLen : Nat
  recordingLen : Int
  latencyCapture : AudioBuffer
  playbackSamplePosition : Int
  recordingSamplePosition : Int
  impulseSent : Bool
  capturedSamplesSinceImpulse : Int
  needsToSaveCurrentFile : Bool
  needsToLoadNextFile : Bool
  needsToCompleteLatencyMeasurement : Bool
  isInProcessingGap : Bool
  processingGapSamplesRemaining : Int
  isInPreviewGap : Bool
  previewGapSamplesRemaining : Int
  targetRecordingSamples : Int
  log : List String

/-- AppState::canMeasureLatency (AppState.h:376-379). -/
def canMeasureLatency (st : MCState) : Bool :=
  !st.selectedDeviceID.isEmpty && st.hasInputPair && st.hasOutputPair

/-- AppState::appendLog (AppState.h:382-387); the wall-clock timestamp
prepended by the source is outside the embedding, the message is kept. -/
def appendLog (st : MCState) (message : String) : MCState :=
  { st with log := st.log ++ [message] }

/-- MainComponent::validateOutputFolder (MainComponent.cpp:1269-1300):
existence, writability, then the first queued file whose parent directory
is the output folder fails the check with three log lines. -/
def validateOutputFolder (st : MCState) (env : FSEnv) : MCState × Bool :=
  if !env.outputFolderExists then
    (appendLog st "Error: Output folder does not exist", false)
  else if !env.outputFolderWritable then
    (appendLog st "Error: No write access to output folder", false)
  else if st.files.any (fun f => f.parentIsOutputFolder) then
    (appendLog (appendLog (appendLog st
        "ERROR: Output folder is same as source file folder!")
        "  This could overwrite your source files.")
        "  Please select a different output folder.", false)
  else (st, true)

/-- MainComponent::loadNextFileForProcessing (MainComponent.cpp:1152-1207):
guards the index, fails invalid-rate and unreadable files (marking them
failed), then sizes the playback and recording buffers, with
latencyFrames = measuredLatencySamples / 2 and the safety formula. -/
def loadNextFileForProcessing (st : MCState) : MCState × Bool :=
  if h : 0 ≤ st.currentFileIndex ∧ st.currentFileIndex < (st.files.length : Int) then
    let idx := st.currentFileIndex.toNat
    let file := st.files.getD idx default
    if !file.validRate then
      (appendLog { st with files := st.files.set idx { file with status := .failed } }
        "Skipping invalid file", false)
    else if !file.loadable then
      (appendLog { st with files := st.files.set idx { file with status := .failed } }
        "Error: Could not read file", false)
    else
      let sourceFrames : Int := file.sourceFrames
      let latencyFrames : Int := Int.tdiv st.measuredLatencySamples 2
      let recordingFrames : Int := sourceFrames + latencyFrames + latencyFrames * 4
      (appendLog { st with
          currentPlaybackLen := file.sourceFrames
          recordingLen := recordingFrames
          targetRecordingSamples := recordingFrames
          files := st.files.set idx { file with status := .processing } }
        "Processing file", true)
  else (st, false)

/-- MainComponent::startProcessing (MainComponent.cpp:996-1047): the
validation ladder, then the initial load. -/
def startProcessing (st : MCState) (env : FSEnv) : MCState :=
  if !canMeasureLatency st then
    appendLog st "Error: Please select input and output devices first"
  else if st.measuredLatencySamples < 0 then
    appendLog st "Error: Latency not measured - please measure latency first"
  else if st.files.isEmpty then
    appendLog st "Error: No files to process"
  else if st.outputFolderPath.isEmpty then
    appendLog st "Error: No output folder selected"
  else
    let v := validateOutputFolder st env
    if !v.2 then v.1
    else
      let st2 := { v.1 with
        currentFileIndex := 0
        isProcessing := false
        isInProcessingGap := false
        processingGapSamplesRemaining := 0 }
      let l := loadNextFileForProcessing st2
      if l.2 then
        appendLog { l.1 with
          playbackSamplePosition := 0
          recordingSamplePosition := 0
          isProcessing := true } "Starting batch processing"
      else l.1

/-- MainComponent::stopAllAudio (MainComponent.cpp:1049-1060). -/
def stopAllAudio (st : MCState) : MCState :=
  appendLog { st with
    isProcessing := false
    isPreviewing := false
    isMeasuringLatency := false
    isTestingHardware := false
    playbackSamplePosition := 0
    recordingSamplePosition := 0 } "Stopped"

/-- MainComponent::startLatencyMeasurement (MainComponent.cpp:1062-1076). -/
def startLatencyMeasurement (st : MCState) : MCState :=
  if !canMeasureLatency st then
    appendLog st "Error: Please select input and output devices first"
  else
    appendLog { st with
      latencyCapture := { st.latencyCapture with sample := fun _ _ => 0 }
      impulseSent := false
      capturedSamplesSinceImpulse := 0
      isMeasuringLatency := true } "Measuring latency..."

/-- MainComponent::startPreview (MainComponent.cpp:1078-1113): builds the
playlist from selected, sample-rate-valid files and requests the first
load on the message thread. -/
def startPreview (st : MCState) : MCState :=
  if !st.hasOutputPair then
    appendLog st "Error: Please select an output device first"
  else
    let playlist := (st.files.filter fun f => f.isSelected && f.validRate).map
      fun f => f.id
    if playlist.isEmpty then
      appendLog { st with previewPlaylist := playlist }
        "Error: No files selected for preview"
    else
      appendLog { st with
        previewPlaylist := playlist
        currentPreviewFileIndex := -1
        playbackSamplePosition := 0
        isInPreviewGap := false
        previewGapSamplesRemaining := 0
        needsToLoadNextFile := true } "Preview started"

/-- MainComponent::stopPreview (MainComponent.cpp:1115-1128). -/
def stopPreview (st : MCState) : MCState :=
  appendLog { st with
    isPreviewing := false
    previewPlaylist := []
    currentPreviewFileIndex := -1
    playbackSamplePosition := 0
    isInPreviewGap := false
    previewGapSamplesRemaining := 0
    needsToLoadNextFile := false } "Preview stopped"

/-- MainComponent::startHardwareTest (MainComponent.cpp:1130-1141); the
sine phase reset is a float with no control-flow role. -/
def startHardwareTest (st : MCState) : MCState :=
  if !canMeasureLatency st then
    appendLog st "Error: Please select input and output devices first"
  else
    appendLog { st with isTestingHardware := true }
      "Hardware loop test started (1 kHz sine wave)"

/-- MainComponent::stopHardwareTest (MainComponent.cpp:1143-1147). -/
def stopHardwareTest (st : MCState) : MCState :=
  appendLog { st with isTestingHardware := false } "Hardware loop test stopped"

/-- MainComponent::prepareToPlay (MainComponent.cpp:127-149): records the
actual device settings and re-allocates the session buffers.  Fresh
allocations are modelled with zero contents. -/
def prepareToPlay (st : MCState) (samplesPerBlockExpected : Nat)
    (sampleRate : Nat) : MCState :=
  appendLog { st with
    sampleRate := sampleRate
    bufferSize := (samplesPerBlockExpected : Int)
    currentPlaybackLen := samplesPerBlockExpected * 100
    recordingLen := (sampleRate * 60 : Nat)
    latencyCapture := ⟨2, sampleRate * 5, fun _ _ => 0⟩ } "Audio system prepared"

/-- Device answers consulted by configureAudioDevice
(MainComponent.cpp:829-931). -/
structure CfgEnv where
  deviceFound : Bool
  setupError : Bool
  deviceOpenOk : Bool
  actualSampleRate : Nat
  actualBufferSize : Int
deriving DecidableEq

/-- MainComponent::configureAudioDevice (MainComponent.cpp:829-931): on the
successful path the actual device rate and buffer size are recorded and the
latency measurement is invalidated (lines 921-923). -/
def configureAudioDevice (st : MCState) (env : CfgEnv) : MCState :=
  if st.selectedDeviceID.isEmpty then
    appendLog st "Warning: No device selected"
  else if !env.deviceFound then
    appendLog st "Error: Selected device not found"
  else
    let st1 := appendLog st "Set device type"
    if env.setupError then appendLog st1 "Error configuring device"
    else if !env.deviceOpenOk then appendLog st1 "Error: Device failed to open"
    else
      appendLog { st1 with
        sampleRate := env.actualSampleRate
        bufferSize := env.actualBufferSize
        measuredLatencySamples := -1
        hasNoiseFloorMeasurement := false } "Device configured successfully"

/-- The copy of the input block into the latency capture buffer at the
capture cursor (MainComponent.cpp:258-266): samplesToWrite is clamped to
the remaining capacity and nothing is written when it is not positive. -/
def captureWrite (st : MCState) (input : AudioBuffer) (numSamples : Nat) :
    AudioBuffer :=
  let writePos := st.capturedSamplesSinceImpulse
  let samplesToWrite :=
    min (numSamples : Int) ((st.latencyCapture.numSamples : Int) - writePos)
  if 0 < samplesToWrite then
    { st.latencyCapture with
      sample := fun ch i =>
        if ch < 2 ∧ writePos ≤ (i : Int) ∧ (i : Int) < writePos + samplesToWrite
        then input.sample ch ((i : Int) - writePos).toNat
        else st.latencyCapture.sample ch i }
  else st.latencyCapture

/-- The LatencyMeasuring branch of getNextAudioBlock
(MainComponent.cpp:215-304).  First callback after the mode is entered:
emit the impulse, reset the cursor, clear and size the capture buffer.
Subsequent callbacks: append the input block at the cursor, advance the
cursor, run peak detection at threshold 0.5, and either record the result,
time out past 5 seconds of samples, or keep waiting. -/
def measuringStep (st : MCState) (input : AudioBuffer)
    (numOutputChannels numSamples : Nat) : MCState :=
  if !st.impulseSent then
    if 2 ≤ numOutputChannels ∧ st.hasOutputPair then
      { st with
        impulseSent := true
        capturedSamplesSinceImpulse := 0
        latencyCapture := ⟨2, st.sampleRate * 5, fun _ _ => 0⟩ }
    else st
  else
    if 2 ≤ input.numChannels ∧ st.hasInputPair then
      let capture := captureWrite st input numSamples
      let cursor := st.capturedSamplesSinceImpulse + (numSamples : Int)
      let peak := findPeakPosition capture (mkRat 1 2)
      if 0 ≤ peak then
        { st with
          latencyCapture := capture
          capturedSamplesSinceImpulse := cursor
          measuredLatencySamples := peak * (capture.numChannels : Int)
          lastBufferSizeWhenMeasured := st.bufferSize
          needsToCompleteLatencyMeasurement := true
          isMeasuringLatency := false }
      else if ((st.sampleRate : Int) * 5) < cursor then
        { st with
          latencyCapture := capture
          capturedSamplesSinceImpulse := cursor
          measuredLatencySamples := -1
          needsToCompleteLatencyMeasurement := true
          isMeasuringLatency := false }
      else
        { st with latencyCapture := capture, capturedSamplesSinceImpulse := cursor }
    else
      if (numSamples : Int) * 10 < st.capturedSamplesSinceImpulse then
        { st with
          measuredLatencySamples := -1
          needsToCompleteLatencyMeasurement := true
          isMeasuringLatency := false
          capturedSamplesSinceImpulse :=
            st.capturedSamplesSinceImpulse + (numSamples : Int) }
      else
        { st with capturedSamplesSinceImpulse :=
            st.capturedSamplesSinceImpulse + (numSamples : Int) }

/-- The gap length in samples, (int64)((silenceBetweenFilesMs / 1000.0) *
sampleRate) (MainComponent.cpp:436-437 and 511-512); both factors are
non-negative so the cast truncation is the floor of the exact product. -/
def gapInitSamples (st : MCState) : Int :=
  Int.tdiv ((st.silenceBetweenFilesMs : Int) * (st.sampleRate : Int)) 1000

/-- The recording-while-capacity-remains cursor advance shared by the
Playing and Gap paths of the Processing branch (MainComponent.cpp:364-377
and 412-425); recorded sample data itself has no control-flow role. -/
def recordAdvance (st : MCState) (input : AudioBuffer) (numSamples : Nat) : Int :=
  if st.recordingSamplePosition < st.recordingLen then
    let samplesToRecord :=
      min (numSamples : Int) (st.recordingLen - st.recordingSamplePosition)
    if 0 < samplesToRecord ∧ 2 ≤ input.numChannels then
      st.recordingSamplePosition + samplesToRecord
    else st.recordingSamplePosition
  else st.recordingSamplePosition

/-- The Processing branch of getNextAudioBlock (MainComponent.cpp:337-448):
while Playing, advance playback and recording cursors and switch to the gap
once the recording cursor reaches targetRecordingSamples; while in the gap,
count the silence down and raise the save flag when it runs out. -/
def processingStep (st : MCState) (input : AudioBuffer)
    (numOutputChannels numSamples : Nat) : MCState :=
  if 2 ≤ numOutputChannels ∧ 2 ≤ input.numChannels ∧
      st.hasOutputPair ∧ st.hasInputPair then
    if st.isInProcessingGap then
      let samplesToSilence := min (numSamples : Int) st.processingGapSamplesRemaining
      let gap1 := st.processingGapSamplesRemaining - samplesToSilence
      let st1 := { st with
        processingGapSamplesRemaining := gap1
        recordingSamplePosition := recordAdvance st input numSamples }
      if gap1 ≤ 0 then
        { st1 with isInProcessingGap := false, needsToSaveCurrentFile := true }
      else st1
    else
      let playPos1 :=
        if st.playbackSamplePosition < (st.currentPlaybackLen : Int) then
          st.playbackSamplePosition +
            min (numSamples : Int) ((st.currentPlaybackLen : Int) -
              st.playbackSamplePosition)
        else st.playbackSamplePosition
      let recPos1 := recordAdvance st input numSamples
      let st1 := { st with
        playbackSamplePosition := playPos1
        recordingSamplePosition := recPos1 }
      if st.targetRecordingSamples ≤ recPos1 then
        let st2 := { st1 with
          playbackSamplePosition := 0
          recordingSamplePosition := 0
          isInProcessingGap := true
          processingGapSamplesRemaining := gapInitSamples st }
        if gapInitSamples st ≤ 0 then
          { st2 with isInProcessingGap := false, needsToSaveCurrentFile := true }
        else st2
      else st1
  else st

/-- The Previewing branch of getNextAudioBlock (MainComponent.cpp:449-529):
play the current buffer, on exhaustion enter the gap, on gap end request the
next file; an invalid playback position stops the preview. -/
def previewStep (st : MCState) (numOutputChannels numSamples : Nat) : MCState :=
  if 2 ≤ numOutputChannels ∧ st.hasOutputPair then
    if st.isInPreviewGap then
      let samplesToSilence := min (numSamples : Int) st.previewGapSamplesRemaining
      let gap1 := st.previewGapSamplesRemaining - samplesToSilence
      let st1 := { st with previewGapSamplesRemaining := gap1 }
      if gap1 ≤ 0 then
        { st1 with isInPreviewGap := false, needsToLoadNextFile := true }
      else st1
    else
      if st.playbackSamplePosition < (st.currentPlaybackLen : Int) then
        let samplesToPlay :=
          min (numSamples : Int) ((st.currentPlaybackLen : Int) -
            st.playbackSamplePosition)
        let playPos1 := st.playbackSamplePosition + samplesToPlay
        if (st.currentPlaybackLen : Int) ≤ playPos1 then
          let st2 := { st with
            playbackSamplePosition := 0
            isInPreviewGap := true
            previewGapSamplesRemaining := gapInitSamples st }
          if gapInitSamples st ≤ 0 then
            { st2 with isInPreviewGap := false, needsToLoadNextFile := true }
          else st2
        else { st with playbackSamplePosition := playPos1 }
      else { st with isPreviewing := false }
  else st

/-- MainComponent::getNextAudioBlock (MainComponent.cpp:196-530): the
per-callback mode dispatch.  The HardwareTest branch only writes the sine
tone to the output and advances the float phase accumulator, so it is the
identity on the modelled state. -/
def audioStep (st : MCState) (input : AudioBuffer)
    (numOutputChannels numSamples : Nat) : MCState :=
  if st.isMeasuringLatency then measuringStep st input numOutputChannels numSamples
  else if st.isTestingHardware then st
  else if st.isProcessing then processingStep st input numOutputChannels numSamples
  else if st.isPreviewing then previewStep st numOutputChannels numSamples
  else st

/-- MainComponent::loadNextFileForPreview (MainComponent.cpp:1209-1267):
looks the playlist entry up by id in the file list and loads it into the
playback buffer. -/
def loadNextFileForPreview (st : MCState) : MCState × Bool :=
  if 0 ≤ st.currentPreviewFileIndex ∧
      st.currentPreviewFileIndex < (st.previewPlaylist.length : Int) then
    let fileID := st.previewPlaylist.getD st.currentPreviewFileIndex.toNat ""
    match st.files.find? fun f => f.id = fileID with
    | none => (appendLog st "Error: Preview file not found", false)
    | some f =>
      if !f.validRate then
        (appendLog st "Skipping invalid preview file", false)
      else if !f.loadable then
        (appendLog st "Error: Could not read preview file", false)
      else
        (appendLog { st with currentPlaybackLen := f.sourceFrames }
          "Preview loaded", true)
  else (st, false)

/-- The needsToLoadNextFile block of timerCallback
(MainComponent.cpp:631-659): consume the flag, advance the preview index,
load it if still inside the playlist, otherwise reset the index to -1 and
re-raise the flag so playback loops round-robin. -/
def previewLoadStep (st : MCState) : MCState :=
  if st.needsToLoadNextFile then
    let st1 := { st with
      needsToLoadNextFile := false
      currentPreviewFileIndex := st.currentPreviewFileIndex + 1 }
    if st1.currentPreviewFileIndex < (st1.previewPlaylist.length : Int) then
      let l := loadNextFileForPreview st1
      if l.2 then
        { l.1 with
          playbackSamplePosition := 0
          isInPreviewGap := false
          isPreviewing := true }
      else { l.1 with needsToLoadNextFile := true }
    else
      appendLog { st1 with
        currentPreviewFileIndex := -1
        needsToLoadNextFile := true } "Preview looping..."
  else st

/-- Filesystem answers consulted by saveCurrentRecording
(MainComponent.cpp:1302-1407). -/
structure SaveEnv where
  streamOk : Bool
  writerOk : Bool
  writeOk : Bool
deriving DecidableEq

/-- MainComponent::saveCurrentRecording (MainComponent.cpp:1302-1407): trims
the recording and writes it out, marking the source entry completed or
failed; the trim and the written samples have no control-flow role here. -/
def saveCurrentRecording (st : MCState) (env : SaveEnv) : MCState :=
  if (st.files.length : Int) ≤ st.currentFileIndex then st
  else
    let idx := st.currentFileIndex.toNat
    let file := st.files.getD idx default
    let st1 := appendLog st "Trimming"
    if !env.streamOk then
      appendLog { st1 with files := st1.files.set idx { file with status := .failed } }
        "ERROR: Could not create output file"
    else if !env.writerOk then
      appendLog { st1 with files := st1.files.set idx { file with status := .failed } }
        "ERROR: Could not create WAV writer"
    else if !env.writeOk then
      appendLog { st1 with files := st1.files.set idx { file with status := .failed } }
        "ERROR: Failed to write audio data"
    else
      appendLog { st1 with files := st1.files.set idx { file with status := .completed } }
        "Saved"

/-- The needsToSaveCurrentFile block of timerCallback
(MainComponent.cpp:568-629): consume the flag, save, advance to the next
file, reloading or finishing the batch. -/
def processingSaveStep (st : MCState) (env : SaveEnv) : MCState :=
  if st.needsToSaveCurrentFile then
    let st1 := saveCurrentRecording { st with needsToSaveCurrentFile := false } env
    let st2 := { st1 with currentFileIndex := st1.currentFileIndex + 1 }
    if st2.currentFileIndex < (st2.files.length : Int) then
      let l := loadNextFileForProcessing st2
      if l.2 then
        { l.1 with
          playbackSamplePosition := 0
          recordingSamplePosition := 0
          isInProcessingGap := false
          processingGapSamplesRemaining := 0
          isProcessing := true }
      else
        appendLog { l.1 with needsToSaveCurrentFile := true } "Skipping to next file..."
    else
      appendLog { st2 with isProcessing := false } "Batch processing COMPLETE"
  else st

/-- The needsToCompleteLatencyMeasurement block of timerCallback
(MainComponent.cpp:537-566): consume the flag and, on success, record the
noise-floor measurement (its dB value is a float with no control-flow
role). -/
def latencyCompleteStep (st : MCState) : MCState :=
  if st.needsToCompleteLatencyMeasurement then
    let st1 := { st with needsToCompleteLatencyMeasurement := false }
    if 0 ≤ st1.measuredLatencySamples then
      appendLog { st1 with hasNoiseFloorMeasurement := true }
        "SUCCESS: Latency measurement complete!"
    else
      appendLog st1 "FAILED: Latency measurement - no audio loop detected"
  else st

/-- A session state matching the default member values of AppState,
ProcessingSettings and MainComponent. -/
def baseState : MCState where
  sampleRate := 44100
  bufferSize := 256
  measuredLatencySamples := -1
  lastBufferSizeWhenMeasured := 256
  hasNoiseFloorMeasurement := false
  silenceBetweenFilesMs := 150
  outputFolderPath := ""
  selectedDeviceID := ""
  hasInputPair := false
  hasOutputPair := false
  files := []
  currentFileIndex := 0
  currentPreviewFileIndex := -1
  previewPlaylist := []
  isProcessing := false
  isMeasuringLatency := false
  isPreviewing := false
  isTestingHardware := false
  currentPlaybackLen := 0
  recordingLen := 0
  latencyCapture := ⟨2, 0, fun _ _ => 0⟩
  playbackSamplePosition := 0
  recordingSamplePosition := 0
  impulseSent := false
  capturedSamplesSinceImpulse := 0
  needsToSaveCurrentFile := false
  needsToLoadNextFile := false
  needsToCompleteLatencyMeasurement := false
  isInProcessingGap := false
  processingGapSamplesRemaining := 0
  isInPreviewGap := false
  previewGapSamplesRemaining := 0
  targetRecordingSamples := 0
  log := []

/-- A state in which a latency measurement has been taken. -/
def measuredState : MCState :=
  { baseState with
    selectedDeviceID := "ext"
    hasInputPair := true
    hasOutputPair := true
    measuredLatencySamples := 441 }

/-- A selected, valid, loadable queued file used by the preview witnesses. -/
def fileA : FileEntry :=
  ⟨"a", .pending, true, true, true, 100, false⟩

/-- A state previewing the single-entry playlist, with the last (and only)
file just finished. -/
def previewWrapState : MCState :=
  { baseState with
    files := [fileA]
    previewPlaylist := ["a"]
    currentPreviewFileIndex := 0
    needsToLoadNextFile := true
    isPreviewing := true
    hasOutputPair := true }

/-- Number of mode flags currently raised. -/
def modeCount (st : MCState) : Nat :=
  (if st.isProcessing then 1 else 0) + (if st.isMeasuringLatency then 1 else 0) +
    (if st.isPreviewing then 1 else 0) + (if st.isTestingHardware then 1 else 0)

/-- At most one of the four mode flags is raised (all false is Idle). -/
def atMostOneMode (st : MCState) : Prop := modeCount st ≤ 1

instance (st : MCState) : Decidable (atMostOneMode st) := by
  unfold atMostOneMode
  infer_instance

/-- A state with a device and both pairs selected and everything idle. -/
def readyState : MCState :=
  { baseState with
    selectedDeviceID := "ext"
    hasInputPair := true
    hasOutputPair := true }

/-- A state awaiting the impulse return: measuring mode, impulse sent, a
tiny capture buffer (sampleRate 1, so five capture samples) with the
cursor three samples in. -/
def awaitingState : MCState :=
  { baseState with
    sampleRate := 1
    isMeasuringLatency := true
    impulseSent := true
    hasInputPair := true
    latencyCapture := ⟨2, 5, fun _ _ => 0⟩
    capturedSamplesSinceImpulse := 3 }

/-- A silent stereo input block of two samples. -/
def zeroInput : AudioBuffer := ⟨2, 2, fun _ _ => 0⟩

/-- A stereo input block carrying the returned impulse at frame 0. -/
def impulseInput : AudioBuffer := ⟨2, 2, fun _ i => if i = 0 then 1 else 0⟩

/-- The awaiting state with the cursor at 0, about to receive the returned
impulse. -/
def awaitingFresh : MCState :=
  { awaitingState with capturedSamplesSinceImpulse := 0 }

/-- A sequence of audio callbacks with the given block sizes, all with the
same input buffer and output channel count. -/
def audioRun (input : AudioBuffer) (nOut : Nat) : MCState → List Nat → MCState
  | st, [] => st
  | st, n :: rest => audioRun input nOut (audioStep st input nOut n) rest

/-- A state mid-gap with the counter freshly loaded. -/
def gapState : MCState :=
  { baseState with
    isProcessing := true
    hasInputPair := true
    hasOutputPair := true
    isInProcessingGap := true
    processingGapSamplesRemaining := 6615 }

lemma trimLatency_sample_eq (captured : AudioBuffer) (latencySamples : Int)
    (originalLength : Nat) (ch i : Nat) :
    (trimLatency captured latencySamples originalLength).sample ch i =
      (if 0 < (if Int.tdiv latencySamples captured.numChannels + (originalLength : Int) >
                  (captured.numSamples : Int) then
                 max 0 ((captured.numSamples : Int) -
                   Int.tdiv latencySamples captured.numChannels)
               else (originalLength : Int)) ∧
          0 ≤ Int.tdiv latencySamples captured.numChannels ∧
          (i : Int) < (if Int.tdiv latencySamples captured.numChannels +
                  (originalLength : Int) > (captured.numSamples : Int) then
                 max 0 ((captured.numSamples : Int) -
                   Int.tdiv latencySamples captured.numChannels)
               else (originalLength : Int)) then
         captured.sample ch ((Int.tdiv latencySamples captured.numChannels).toNat + i)
       else 0) := rfl

lemma trimLatency_copies (captured : AudioBuffer) (latencySamples : Int)
    (targetFrames : Nat) (ch i : Nat)
    (h0 : 0 ≤ Int.tdiv latencySamples captured.numChannels)
    (h1 : Int.tdiv latencySamples captured.numChannels ≤ (captured.numSamples : Int))
    (hi : (i : Int) < min (targetFrames : Int)
        ((captured.numSamples : Int) - Int.tdiv latencySamples captured.numChannels)) :
    (trimLatency captured latencySamples targetFrames).sample ch i =
      captured.sample ch ((Int.tdiv latencySamples captured.numChannels).toNat + i) := by
  rw [trimLatency_sample_eq]
  split_ifs <;> first | rfl | omega

lemma trimLatency_tail_zero (captured : AudioBuffer) (latencySamples : Int)
    (targetFrames : Nat) (ch i : Nat)
    (h0 : 0 ≤ Int.tdiv latencySamples captured.numChannels)
    (hi : min (targetFrames : Int)
        ((captured.numSamples : Int) - Int.tdiv latencySamples captured.numChannels) ≤
        (i : Int)) :
    (trimLatency captured latencySamples targetFrames).sample ch i = 0 := by
  rw [trimLatency_sample_eq]
  split_ifs <;> first | rfl | omega

lemma trimLatency_invalid_zero (captured : AudioBuffer) (latencySamples : Int)
    (targetFrames : Nat) (ch i : Nat)
    (h : Int.tdiv latencySamples captured.numChannels < 0 ∨
        (captured.numSamples : Int) ≤ Int.tdiv latencySamples captured.numChannels) :
    (trimLatency captured latencySamples targetFrames).sample ch i = 0 := by
  rw [trimLatency_sample_eq]
  split_ifs <;> first | rfl | omega

/-- C1: trimLatency returns a buffer of exactly targetFrames frames per
channel, copying min(targetFrames, capturedFrames - startFrame) frames per
channel from startFrame = latencySamples / channelCount (truncating integer
division), zero-padding the tail on any shortfall, and all-zero when
startFrame is negative or at/beyond the captured length; in particular with
5000 captured stereo frames, latencySamples 200 and target 1000 it returns
captured frames 100..1099 exactly, and with 150 captured frames it returns
frames 100..149 followed by 950 zeros. -/
theorem claim_C1_trimLatency (captured : AudioBuffer) (latencySamples : Int)
    (targetFrames : Nat) (hch : 1 ≤ captured.numChannels) :
    ((trimLatency captured latencySamples targetFrames).numChannels =
        captured.numChannels ∧
     (trimLatency captured latencySamples targetFrames).numSamples = targetFrames) ∧
    (∀ ch i : Nat,
        0 ≤ Int.tdiv latencySamples captured.numChannels →
        Int.tdiv latencySamples captured.numChannels ≤ (captured.numSamples : Int) →
        (i : Int) < min (targetFrames : Int)
          ((captured.numSamples : Int) - Int.tdiv latencySamples captured.numChannels) →
        (trimLatency captured latencySamples targetFrames).sample ch i =
          captured.sample ch ((Int.tdiv latencySamples captured.numChannels).toNat + i)) ∧
    (∀ ch i : Nat,
        0 ≤ Int.tdiv latencySamples captured.numChannels →
        min (targetFrames : Int)
          ((captured.numSamples : Int) - Int.tdiv latencySamples captured.numChannels) ≤
          (i : Int) →
        (trimLatency captured latencySamples targetFrames).sample ch i = 0) ∧
    ((Int.tdiv latencySamples captured.numChannels < 0 ∨
        (captured.numSamples : Int) ≤ Int.tdiv latencySamples captured.numChannels) →
        ∀ ch i : Nat,
        (trimLatency captured latencySamples targetFrames).sample ch i = 0) ∧
    (captured.numChannels = 2 → captured.numSamples = 5000 →
        ∀ ch i : Nat, i < 1000 →
        (trimLatency captured 200 1000).sample ch i = captured.sample ch (100 + i)) ∧
    (captured.numChannels = 2 → captured.numSamples = 150 →
        ∀ ch i : Nat, i < 1000 →
        (trimLatency captured 200 1000).sample ch i =
          if i < 50 then captured.sample ch (100 + i) else 0) := by
  refine ⟨⟨rfl, rfl⟩, ?_, ?_, ?_, ?_, ?_⟩
  · intro ch i h0 h1 hi
    exact trimLatency_copies captured latencySamples targetFrames ch i h0 h1 hi
  · intro ch i h0 hi
    exact trimLatency_tail_zero captured latencySamples targetFrames ch i h0 hi
  · intro h ch i
    exact trimLatency_invalid_zero captured latencySamples targetFrames ch i h
  · intro h2 h5000 ch i hi
    rw [trimLatency_sample_eq, h2, h5000]
    have hdiv : Int.tdiv 200 ((2 : Nat) : Int) = 100 := by decide
    rw [hdiv]
    have htn : (100 : Int).toNat = 100 := rfl
    rw [htn]
    split_ifs <;> first | rfl | omega
  · intro h2 h150 ch i hi
    rw [trimLatency_sample_eq, h2, h150]
    have hdiv : Int.tdiv 200 ((2 : Nat) : Int) = 100 := by decide
    rw [hdiv]
    have htn : (100 : Int).toNat = 100 := rfl
    rw [htn]
    split_ifs <;> first | rfl | omega

/-- Witness for C1 at a concrete captured buffer. -/
theorem claim_C1_trimLatency_witness :
    1 ≤ (demoBuf 2 5000).numChannels ∧
    (trimLatency (demoBuf 2 5000) 200 1000).numSamples = 1000 ∧
    (trimLatency (demoBuf 2 5000) 200 1000).sample 0 7 =
      (demoBuf 2 5000).sample 0 107 := by
  have h := claim_C1_trimLatency (demoBuf 2 5000) 200 1000 (by decide)
  refine ⟨by decide, h.1.2, ?_⟩
  exact h.2.2.2.2.1 rfl rfl 0 7 (by decide)

/-- C2: the target recording length for a take is
sourceFrames + latencyFrames + 4 * latencyFrames with
latencyFrames = measuredLatencySamples / 2 (truncating integer division,
stereo recording path); in particular 44100 source frames with latencyFrames
500 give 46600. -/
theorem claim_C2_recordingLength (sourceFrames measuredLatencySamples : Int) :
    processingRecordingFrames sourceFrames measuredLatencySamples =
      sourceFrames + Int.tdiv measuredLatencySamples 2 +
        4 * Int.tdiv measuredLatencySamples 2 ∧
    getRecordingLength sourceFrames (Int.tdiv measuredLatencySamples 2) =
      processingRecordingFrames sourceFrames measuredLatencySamples ∧
    processingRecordingFrames 44100 1000 = 46600 := by
  refine ⟨?_, ?_, by decide⟩ <;>
    simp only [processingRecordingFrames, getRecordingLength] <;> ring

/-- C10: trimLatency divides latencySamples by the captured buffer's channel
count with no zero guard: with at least one channel the division is defined
and the checked variant agrees with trimLatency, while a zero-channel buffer
hits the undefined division (modelled as none). -/
theorem claim_C10_divisionGuard (captured : AudioBuffer) (latencySamples : Int)
    (originalLength : Nat) :
    (1 ≤ captured.numChannels →
        trimLatencyChecked captured latencySamples originalLength =
          some (trimLatency captured latencySamples originalLength)) ∧
    (captured.numChannels = 0 →
        trimLatencyChecked captured latencySamples originalLength = none) := by
  constructor
  · intro h
    rw [trimLatencyChecked, if_neg (by omega)]
  · intro h
    rw [trimLatencyChecked, if_pos h]

/-- Witness for C10: both the guarded and the failing case at concrete
buffers. -/
theorem claim_C10_divisionGuard_witness :
    (1 ≤ (demoBuf 2 50).numChannels ∧
      trimLatencyChecked (demoBuf 2 50) 200 30 =
        some (trimLatency (demoBuf 2 50) 200 30)) ∧
    (zeroChannelBuf.numChannels = 0 ∧
      trimLatencyChecked zeroChannelBuf 200 30 = none) :=
  ⟨⟨by decide, (claim_C10_divisionGuard (demoBuf 2 50) 200 30).1 (by decide)⟩,
   ⟨rfl, (claim_C10_divisionGuard zeroChannelBuf 200 30).2 rfl⟩⟩

lemma scanPeak_fst (l : List (Nat × ℚ)) (mv : ℚ) (mp : Int) :
    (scanPeak l (mv, mp)).1 = l.foldl (fun a p => max a |p.2|) mv := by
  induction l generalizing mv mp with
  | nil => rfl
  | cons hd tl ih =>
    obtain ⟨i, v⟩ := hd
    simp only [scanPeak, List.foldl_cons]
    by_cases h : |v| > mv
    · rw [if_pos h, ih]
      congr 1
      exact (max_eq_right h.le).symm
    · rw [if_neg h, ih]
      congr 1
      exact (max_eq_left (not_lt.mp h)).symm

lemma scanPeak_snd (l : List (Nat × ℚ)) (mv : ℚ) (mp : Int) :
    scanPeak l (mv, mp) = (mv, mp) ∨
      ∃ p ∈ l, |p.2| = (scanPeak l (mv, mp)).1 ∧
        (scanPeak l (mv, mp)).2 = (p.1 : Int) ∧ mv < (scanPeak l (mv, mp)).1 := by
  induction l generalizing mv mp with
  | nil => exact Or.inl rfl
  | cons hd tl ih =>
    obtain ⟨i, v⟩ := hd
    by_cases h : |v| > mv
    · have hstep : scanPeak ((i, v) :: tl) (mv, mp) = scanPeak tl (|v|, (i : Int)) := by
        simp [scanPeak, h]
      rcases ih |v| (i : Int) with heq | ⟨p, hp, h1, h2, h3⟩
      · right
        refine ⟨(i, v), List.mem_cons_self _ _, ?_, ?_, ?_⟩ <;>
          rw [hstep, heq]
        · exact h
      · right
        refine ⟨p, List.mem_cons_of_mem _ hp, ?_, ?_, ?_⟩ <;> rw [hstep]
        · exact h1
        · exact h2
        · exact lt_trans h h3
    · have hstep : scanPeak ((i, v) :: tl) (mv, mp) = scanPeak tl (mv, mp) := by
        simp [scanPeak, h]
      rcases ih mv mp with heq | ⟨p, hp, h1, h2, h3⟩
      · left
        rw [hstep, heq]
      · right
        refine ⟨p, List.mem_cons_of_mem _ hp, ?_, ?_, ?_⟩ <;> rw [hstep]
        · exact h1
        · exact h2
        · exact h3

lemma mem_samplesList {buffer : AudioBuffer} {p : Nat × ℚ}
    (hp : p ∈ samplesList buffer) :
    ∃ ch < buffer.numChannels, ∃ i < buffer.numSamples,
      p = (i, buffer.sample ch i) := by
  simp only [samplesList, List.mem_flatMap, List.mem_map, List.mem_range] at hp
  obtain ⟨ch, hch, i, hi, hpe⟩ := hp
  exact ⟨ch, hch, i, hi, hpe.symm⟩

/-- C8 counterexample: at threshold -1 a single-sample silent buffer has
maximum absolute sample 0 > -1, yet findPeakPosition still returns -1
(the running maximum starts at 0 and a 0 sample never strictly exceeds it),
so the unrestricted claim fails for negative thresholds. -/
theorem claim_C8_counterexample :
    findPeakPosition silentBuf (-1) = -1 ∧ ¬ maxAbs silentBuf ≤ (-1 : ℚ) := by
  decide

/-- C8 (amended): for every buffer and every non-negative threshold,
findPeakPosition returns -1 exactly when the maximum absolute sample over
all channels and frames (0 for an empty buffer) is at most the threshold,
and otherwise returns a frame index at which some channel attains the
global maximum absolute sample. -/
theorem claim_C8_peakPosition (buffer : AudioBuffer) (threshold : ℚ)
    (hth : 0 ≤ threshold) :
    (findPeakPosition buffer threshold = -1 ↔ maxAbs buffer ≤ threshold) ∧
    (threshold < maxAbs buffer →
      0 ≤ findPeakPosition buffer threshold ∧
      ∃ ch < buffer.numChannels, ∃ i < buffer.numSamples,
        findPeakPosition buffer threshold = (i : Int) ∧
        |buffer.sample ch i| = maxAbs buffer) := by
  have hfst : (scanPeak (samplesList buffer) (0, -1)).1 = maxAbs buffer :=
    scanPeak_fst (samplesList buffer) 0 (-1)
  have hkey : threshold < maxAbs buffer →
      0 ≤ findPeakPosition buffer threshold ∧
      ∃ ch < buffer.numChannels, ∃ i < buffer.numSamples,
        findPeakPosition buffer threshold = (i : Int) ∧
        |buffer.sample ch i| = maxAbs buffer := by
    intro hgt
    have hres : findPeakPosition buffer threshold =
        (scanPeak (samplesList buffer) (0, -1)).2 := by
      simp only [findPeakPosition]
      rw [if_pos (by rw [hfst]; exact hgt)]
    rcases scanPeak_snd (samplesList buffer) 0 (-1) with heq | ⟨p, hp, h1, h2, _⟩
    · exfalso
      have : maxAbs buffer = 0 := by rw [← hfst, heq]
      rw [this] at hgt
      exact absurd hth (not_le.mpr hgt)
    · obtain ⟨ch, hch, i, hi, hpe⟩ := mem_samplesList hp
      subst hpe
      rw [hfst] at h1
      refine ⟨by rw [hres, h2]; exact Int.ofNat_nonneg i,
        ch, hch, i, hi, by rw [hres, h2], h1⟩
  refine ⟨⟨?_, ?_⟩, hkey⟩
  · intro hneg
    by_contra hnle
    obtain ⟨hge, _, _, _, _, hix, _⟩ := hkey (not_le.mp hnle)
    rw [hneg] at hge
    exact absurd hge (by norm_num)
  · intro hle
    simp only [findPeakPosition]
    rw [if_neg (by rw [hfst]; exact not_lt.mpr hle)]

/-- Witness for C8 at a concrete buffer with a 0.9 peak and threshold 1/2. -/
theorem claim_C8_peakPosition_witness :
    0 ≤ (1 / 2 : ℚ) ∧
    ((findPeakPosition peakBuf (1 / 2) = -1 ↔ maxAbs peakBuf ≤ 1 / 2) ∧
     (1 / 2 < maxAbs peakBuf →
       0 ≤ findPeakPosition peakBuf (1 / 2) ∧
       ∃ ch < peakBuf.numChannels, ∃ i < peakBuf.numSamples,
         findPeakPosition peakBuf (1 / 2) = (i : Int) ∧
         |peakBuf.sample ch i| = maxAbs peakBuf)) :=
  ⟨by norm_num, claim_C8_peakPosition peakBuf (1 / 2) (by norm_num)⟩

/-- C6 counterexample: prepareToPlay (invoked by the device layer with the
actual stream parameters) changes the session sample rate from 44100 to
48000 and the block size from 256 to 512, yet the previously measured
latency of 441 samples is left in place instead of being reset to -1. -/
theorem claim_C6_counterexample :
    measuredState.sampleRate = 44100 ∧
    measuredState.bufferSize = 256 ∧
    measuredState.measuredLatencySamples = 441 ∧
    (prepareToPlay measuredState 512 48000).sampleRate = 48000 ∧
    (prepareToPlay measuredState 512 48000).bufferSize = 512 ∧
    (prepareToPlay measuredState 512 48000).measuredLatencySamples = 441 :=
  ⟨rfl, rfl, rfl, rfl, rfl, rfl⟩

/-- C6 (amended): device reconfiguration (configureAudioDevice) always
resets measuredLatencySamples to -1 on its successful path while recording
the actual device rate and buffer size; prepareToPlay however updates
settings.sampleRate and settings.bufferSize without invalidating the
measurement. -/
theorem claim_C6_latencyInvalidation (st : MCState) (env : CfgEnv)
    (hsel : st.selectedDeviceID.isEmpty = false)
    (hfound : env.deviceFound = true)
    (herr : env.setupError = false)
    (hopen : env.deviceOpenOk = true) :
    (configureAudioDevice st env).measuredLatencySamples = -1 ∧
    (configureAudioDevice st env).sampleRate = env.actualSampleRate ∧
    (configureAudioDevice st env).bufferSize = env.actualBufferSize ∧
    (∀ blockExpected rate : Nat,
      (prepareToPlay st blockExpected rate).sampleRate = rate ∧
      (prepareToPlay st blockExpected rate).bufferSize = (blockExpected : Int) ∧
      (prepareToPlay st blockExpected rate).measuredLatencySamples =
        st.measuredLatencySamples) := by
  refine ⟨?_, ?_, ?_, ?_⟩ <;>
    simp [configureAudioDevice, prepareToPlay, appendLog, hsel, hfound, herr, hopen]

/-- Witness for C6 at a concrete state and device environment. -/
theorem claim_C6_latencyInvalidation_witness :
    (measuredState.selectedDeviceID.isEmpty = false ∧
      (CfgEnv.mk true false true 48000 512).deviceFound = true ∧
      (CfgEnv.mk true false true 48000 512).setupError = false ∧
      (CfgEnv.mk true false true 48000 512).deviceOpenOk = true) ∧
    (configureAudioDevice measuredState (CfgEnv.mk true false true 48000 512)).measuredLatencySamples = -1 ∧
    (configureAudioDevice measuredState (CfgEnv.mk true false true 48000 512)).sampleRate = 48000 ∧
    (configureAudioDevice measuredState (CfgEnv.mk true false true 48000 512)).bufferSize = 512 ∧
    (prepareToPlay measuredState 512 48000).sampleRate = 48000 ∧
    (prepareToPlay measuredState 512 48000).bufferSize = 512 ∧
    (prepareToPlay measuredState 512 48000).measuredLatencySamples =
      measuredState.measuredLatencySamples := by
  have h := claim_C6_latencyInvalidation measuredState
    (CfgEnv.mk true false true 48000 512) rfl rfl rfl rfl
  exact ⟨⟨rfl, rfl, rfl, rfl⟩, h.1, h.2.1, h.2.2.1,
    (h.2.2.2 512 48000).1, (h.2.2.2 512 48000).2.1, (h.2.2.2 512 48000).2.2⟩

/-- C4: whenever a startProcessing precondition is violated (no device or
stereo pairs selected, unmeasured latency, empty queue, or an output folder
that is missing/unselected, non-writable, or the parent folder of a queued
source file), startProcessing appends a specific user-facing reason to the
log and leaves the file list (hence every file's status) and the
isProcessing flag unchanged. -/
theorem claim_C4_startProcessingGuards (st : MCState) (env : FSEnv)
    (hviol : canMeasureLatency st = false ∨ st.measuredLatencySamples < 0 ∨
      st.files.isEmpty = true ∨ st.outputFolderPath.isEmpty = true ∨
      env.outputFolderExists = false ∨ env.outputFolderWritable = false ∨
      st.files.any (fun f => f.parentIsOutputFolder) = true) :
    (startProcessing st env).files = st.files ∧
    (startProcessing st env).isProcessing = st.isProcessing ∧
    ∃ msgs : List String, msgs ≠ [] ∧
      (startProcessing st env).log = st.log ++ msgs := by
  by_cases h1 : canMeasureLatency st = true
  case neg =>
    simp only [Bool.not_eq_true] at h1
    have hres : startProcessing st env =
        appendLog st "Error: Please select input and output devices first" := by
      simp [startProcessing, h1]
    rw [hres]
    exact ⟨rfl, rfl, ⟨_, by simp, rfl⟩⟩
  case pos =>
  by_cases h2 : st.measuredLatencySamples < 0
  case pos =>
    have hres : startProcessing st env =
        appendLog st "Error: Latency not measured - please measure latency first" := by
      simp [startProcessing, h1, h2]
    rw [hres]
    exact ⟨rfl, rfl, ⟨_, by simp, rfl⟩⟩
  case neg =>
  by_cases h3 : st.files.isEmpty = true
  case pos =>
    have hres : startProcessing st env =
        appendLog st "Error: No files to process" := by
      simp [startProcessing, h1, h2, h3]
    rw [hres]
    exact ⟨rfl, rfl, ⟨_, by simp, rfl⟩⟩
  case neg =>
  simp only [Bool.not_eq_true] at h3
  by_cases h4 : st.outputFolderPath.isEmpty = true
  case pos =>
    have hres : startProcessing st env =
        appendLog st "Error: No output folder selected" := by
      simp [startProcessing, h1, h2, h3, h4]
    rw [hres]
    exact ⟨rfl, rfl, ⟨_, by simp, rfl⟩⟩
  case neg =>
  simp only [Bool.not_eq_true] at h4
  by_cases h5 : env.outputFolderExists = true
  case neg =>
    simp only [Bool.not_eq_true] at h5
    have hres : startProcessing st env =
        appendLog st "Error: Output folder does not exist" := by
      simp [startProcessing, validateOutputFolder, h1, h2, h3, h4, h5]
    rw [hres]
    exact ⟨rfl, rfl, ⟨_, by simp, rfl⟩⟩
  case pos =>
  by_cases h6 : env.outputFolderWritable = true
  case neg =>
    simp only [Bool.not_eq_true] at h6
    have hres : startProcessing st env =
        appendLog st "Error: No write access to output folder" := by
      simp [startProcessing, validateOutputFolder, h1, h2, h3, h4, h5, h6]
    rw [hres]
    exact ⟨rfl, rfl, ⟨_, by simp, rfl⟩⟩
  case pos =>
  by_cases h7 : st.files.any (fun f => f.parentIsOutputFolder) = true
  case pos =>
    have hres : startProcessing st env =
        appendLog (appendLog (appendLog st
          "ERROR: Output folder is same as source file folder!")
          "  This could overwrite your source files.")
          "  Please select a different output folder." := by
      simp [startProcessing, validateOutputFolder, h1, h2, h3, h4, h5, h6, h7]
    rw [hres]
    refine ⟨rfl, rfl,
      ⟨["ERROR: Output folder is same as source file folder!",
        "  This could overwrite your source files.",
        "  Please select a different output folder."], by simp, ?_⟩⟩
    simp [appendLog]
  case neg =>
    simp only [Bool.not_eq_true] at h7
    rcases hviol with h | h | h | h | h | h | h <;> simp_all

/-- Witness for C4 at the default state (no device selected) with a missing
output folder. -/
theorem claim_C4_startProcessingGuards_witness :
    (canMeasureLatency baseState = false ∨
      baseState.measuredLatencySamples < 0 ∨
      baseState.files.isEmpty = true ∨
      baseState.outputFolderPath.isEmpty = true ∨
      (FSEnv.mk false false).outputFolderExists = false ∨
      (FSEnv.mk false false).outputFolderWritable = false ∨
      baseState.files.any (fun f => f.parentIsOutputFolder) = true) ∧
    (startProcessing baseState (FSEnv.mk false false)).files = baseState.files ∧
    (startProcessing baseState (FSEnv.mk false false)).isProcessing =
      baseState.isProcessing ∧
    ∃ msgs : List String, msgs ≠ [] ∧
      (startProcessing baseState (FSEnv.mk false false)).log =
        baseState.log ++ msgs :=
  ⟨Or.inl rfl, claim_C4_startProcessingGuards baseState (FSEnv.mk false false)
    (Or.inl rfl)⟩

/-- C9: with a non-empty preview playlist of N entries, after the file at
index N-1 finishes (the router raised needsToLoadNextFile), the next timer
tick wraps the index to -1 keeping the flag raised, and the tick after that
loads index 0 and resumes previewing; this holds of every such state, so
the round-robin repeats until stopPreview clears the flag, after which the
timer step is the identity. -/
theorem claim_C9_previewRoundRobin (st : MCState) (f0 : FileEntry)
    (hN : 1 ≤ st.previewPlaylist.length)
    (hidx : st.currentPreviewFileIndex = (st.previewPlaylist.length : Int) - 1)
    (hflag : st.needsToLoadNextFile = true)
    (hfind : st.files.find? (fun f => f.id = st.previewPlaylist.getD 0 "") = some f0)
    (hvalid : f0.validRate = true) (hload : f0.loadable = true) :
    (previewLoadStep st).currentPreviewFileIndex = -1 ∧
    (previewLoadStep st).needsToLoadNextFile = true ∧
    (previewLoadStep (previewLoadStep st)).currentPreviewFileIndex = 0 ∧
    (previewLoadStep (previewLoadStep st)).isPreviewing = true ∧
    (previewLoadStep (previewLoadStep st)).needsToLoadNextFile = false ∧
    (previewLoadStep (previewLoadStep st)).currentPlaybackLen = f0.sourceFrames ∧
    (stopPreview (previewLoadStep (previewLoadStep st))).needsToLoadNextFile =
      false ∧
    (∀ st2 : MCState, st2.needsToLoadNextFile = false →
      previewLoadStep st2 = st2) := by
  have hc1 : ¬(st.currentPreviewFileIndex + 1 < (st.previewPlaylist.length : Int)) := by
    omega
  have key1 : previewLoadStep st =
      appendLog { st with
        needsToLoadNextFile := true
        currentPreviewFileIndex := -1 } "Preview looping..." := by
    simp [previewLoadStep, hflag, hc1, appendLog]
  have hc2 : ((-1 : Int) + 1) < (st.previewPlaylist.length : Int) := by omega
  have key2 : previewLoadStep (appendLog { st with
        needsToLoadNextFile := true
        currentPreviewFileIndex := -1 } "Preview looping...") =
      { st with
        needsToLoadNextFile := false
        currentPreviewFileIndex := 0
        currentPlaybackLen := f0.sourceFrames
        playbackSamplePosition := 0
        isInPreviewGap := false
        isPreviewing := true
        log := (st.log ++ ["Preview looping..."]) ++ ["Preview loaded"] } := by
    have hN0 : 0 < st.previewPlaylist.length := hN
    have hfind2 : List.find?
        (fun f => decide (f.id = st.previewPlaylist[0]?.getD "")) st.files =
        some f0 := by
      simpa [List.getD] using hfind
    have hfind3 : List.find?
        (fun f => decide (f.id = getElem st.previewPlaylist 0 hN0)) st.files =
        some f0 := by
      have hg : getElem st.previewPlaylist 0 hN0 = st.previewPlaylist.getD 0 "" :=
        (List.getD_eq_getElem st.previewPlaylist "" hN0).symm
      rw [hg]
      exact hfind
    simp only [previewLoadStep, appendLog, loadNextFileForPreview]
    norm_num [hc2, hfind2, hfind3, hvalid, hload, hN0]
  rw [key1, key2]
  refine ⟨rfl, rfl, rfl, rfl, rfl, rfl, rfl, ?_⟩
  intro st2 h2
  simp [previewLoadStep, h2]

/-- Witness for C9 on a one-entry playlist. -/
theorem claim_C9_previewRoundRobin_witness :
    (1 ≤ previewWrapState.previewPlaylist.length ∧
      previewWrapState.currentPreviewFileIndex =
        (previewWrapState.previewPlaylist.length : Int) - 1 ∧
      previewWrapState.needsToLoadNextFile = true ∧
      previewWrapState.files.find?
        (fun f => f.id = previewWrapState.previewPlaylist.getD 0 "") = some fileA ∧
      fileA.validRate = true ∧ fileA.loadable = true) ∧
    (previewLoadStep previewWrapState).currentPreviewFileIndex = -1 ∧
    (previewLoadStep (previewLoadStep previewWrapState)).currentPreviewFileIndex =
      0 ∧
    (previewLoadStep (previewLoadStep previewWrapState)).isPreviewing = true := by
  have h := claim_C9_previewRoundRobin previewWrapState fileA (by decide)
    (by decide) (by decide) (by decide) (by decide) (by decide)
  exact ⟨⟨by decide, by decide, by decide, by decide, by decide, by decide⟩,
    h.1, h.2.2.1, h.2.2.2.1⟩

lemma vof_isProcessing (st : MCState) (env : FSEnv) :
    (validateOutputFolder st env).1.isProcessing = st.isProcessing := by
  simp only [validateOutputFolder]; split_ifs <;> rfl

lemma vof_isMeasuring (st : MCState) (env : FSEnv) :
    (validateOutputFolder st env).1.isMeasuringLatency = st.isMeasuringLatency := by
  simp only [validateOutputFolder]; split_ifs <;> rfl

lemma vof_isPreviewing (st : MCState) (env : FSEnv) :
    (validateOutputFolder st env).1.isPreviewing = st.isPreviewing := by
  simp only [validateOutputFolder]; split_ifs <;> rfl

lemma vof_isTesting (st : MCState) (env : FSEnv) :
    (validateOutputFolder st env).1.isTestingHardware = st.isTestingHardware := by
  simp only [validateOutputFolder]; split_ifs <;> rfl

lemma lnfp_isProcessing (st : MCState) :
    (loadNextFileForProcessing st).1.isProcessing = st.isProcessing := by
  simp only [loadNextFileForProcessing]; split_ifs <;> rfl

lemma lnfp_isMeasuring (st : MCState) :
    (loadNextFileForProcessing st).1.isMeasuringLatency = st.isMeasuringLatency := by
  simp only [loadNextFileForProcessing]; split_ifs <;> rfl

lemma lnfp_isPreviewing (st : MCState) :
    (loadNextFileForProcessing st).1.isPreviewing = st.isPreviewing := by
  simp only [loadNextFileForProcessing]; split_ifs <;> rfl

lemma lnfp_isTesting (st : MCState) :
    (loadNextFileForProcessing st).1.isTestingHardware = st.isTestingHardware := by
  simp only [loadNextFileForProcessing]; split_ifs <;> rfl

lemma save_isProcessing (st : MCState) (env : SaveEnv) :
    (saveCurrentRecording st env).isProcessing = st.isProcessing := by
  simp only [saveCurrentRecording]; split_ifs <;> rfl

lemma save_isMeasuring (st : MCState) (env : SaveEnv) :
    (saveCurrentRecording st env).isMeasuringLatency = st.isMeasuringLatency := by
  simp only [saveCurrentRecording]; split_ifs <;> rfl

lemma save_isPreviewing (st : MCState) (env : SaveEnv) :
    (saveCurrentRecording st env).isPreviewing = st.isPreviewing := by
  simp only [saveCurrentRecording]; split_ifs <;> rfl

lemma save_isTesting (st : MCState) (env : SaveEnv) :
    (saveCurrentRecording st env).isTestingHardware = st.isTestingHardware := by
  simp only [saveCurrentRecording]; split_ifs <;> rfl

lemma lnfv_isProcessing (st : MCState) :
    (loadNextFileForPreview st).1.isProcessing = st.isProcessing := by
  simp only [loadNextFileForPreview]
  split_ifs
  · split
    · rfl
    · split_ifs <;> rfl
  · rfl

lemma lnfv_isMeasuring (st : MCState) :
    (loadNextFileForPreview st).1.isMeasuringLatency = st.isMeasuringLatency := by
  simp only [loadNextFileForPreview]
  split_ifs
  · split
    · rfl
    · split_ifs <;> rfl
  · rfl

lemma lnfv_isTesting (st : MCState) :
    (loadNextFileForPreview st).1.isTestingHardware = st.isTestingHardware := by
  simp only [loadNextFileForPreview]
  split_ifs
  · split
    · rfl
    · split_ifs <;> rfl
  · rfl

lemma measuringStep_isProcessing (st : MCState) (input : AudioBuffer)
    (nOut n : Nat) :
    (measuringStep st input nOut n).isProcessing = st.isProcessing := by
  simp only [measuringStep]; split_ifs <;> rfl

lemma measuringStep_isPreviewing (st : MCState) (input : AudioBuffer)
    (nOut n : Nat) :
    (measuringStep st input nOut n).isPreviewing = st.isPreviewing := by
  simp only [measuringStep]; split_ifs <;> rfl

lemma measuringStep_isTesting (st : MCState) (input : AudioBuffer)
    (nOut n : Nat) :
    (measuringStep st input nOut n).isTestingHardware = st.isTestingHardware := by
  simp only [measuringStep]; split_ifs <;> rfl

lemma measuringStep_isMeasuring_mono (st : MCState) (input : AudioBuffer)
    (nOut n : Nat)
    (h : (measuringStep st input nOut n).isMeasuringLatency = true) :
    st.isMeasuringLatency = true := by
  simp only [measuringStep] at h; split_ifs at h <;> simp_all

lemma processingStep_isProcessing (st : MCState) (input : AudioBuffer)
    (nOut n : Nat) :
    (processingStep st input nOut n).isProcessing = st.isProcessing := by
  simp only [processingStep]; split_ifs <;> rfl

lemma processingStep_isMeasuring (st : MCState) (input : AudioBuffer)
    (nOut n : Nat) :
    (processingStep st input nOut n).isMeasuringLatency = st.isMeasuringLatency := by
  simp only [processingStep]; split_ifs <;> rfl

lemma processingStep_isPreviewing (st : MCState) (input : AudioBuffer)
    (nOut n : Nat) :
    (processingStep st input nOut n).isPreviewing = st.isPreviewing := by
  simp only [processingStep]; split_ifs <;> rfl

lemma processingStep_isTesting (st : MCState) (input : AudioBuffer)
    (nOut n : Nat) :
    (processingStep st input nOut n).isTestingHardware = st.isTestingHardware := by
  simp only [processingStep]; split_ifs <;> rfl

lemma previewStep_isProcessing (st : MCState) (nOut n : Nat) :
    (previewStep st nOut n).isProcessing = st.isProcessing := by
  simp only [previewStep]; split_ifs <;> rfl

lemma previewStep_isMeasuring (st : MCState) (nOut n : Nat) :
    (previewStep st nOut n).isMeasuringLatency = st.isMeasuringLatency := by
  simp only [previewStep]; split_ifs <;> rfl

lemma previewStep_isTesting (st : MCState) (nOut n : Nat) :
    (previewStep st nOut n).isTestingHardware = st.isTestingHardware := by
  simp only [previewStep]; split_ifs <;> rfl

lemma previewStep_isPreviewing_mono (st : MCState) (nOut n : Nat)
    (h : (previewStep st nOut n).isPreviewing = true) :
    st.isPreviewing = true := by
  simp only [previewStep] at h; split_ifs at h <;> simp_all

lemma plstep_isProcessing (st : MCState) :
    (previewLoadStep st).isProcessing = st.isProcessing := by
  simp only [previewLoadStep]
  split
  · split
    · split
      · simp [lnfv_isProcessing]
      · simp [lnfv_isProcessing]
    · simp [appendLog]
  · rfl

lemma plstep_isMeasuring (st : MCState) :
    (previewLoadStep st).isMeasuringLatency = st.isMeasuringLatency := by
  simp only [previewLoadStep]
  split
  · split
    · split
      · simp [lnfv_isMeasuring]
      · simp [lnfv_isMeasuring]
    · simp [appendLog]
  · rfl

lemma plstep_isTesting (st : MCState) :
    (previewLoadStep st).isTestingHardware = st.isTestingHardware := by
  simp only [previewLoadStep]
  split
  · split
    · split
      · simp [lnfv_isTesting]
      · simp [lnfv_isTesting]
    · simp [appendLog]
  · rfl

lemma psstep_isMeasuring (st : MCState) (env : SaveEnv) :
    (processingSaveStep st env).isMeasuringLatency = st.isMeasuringLatency := by
  simp only [processingSaveStep]
  split
  · split
    · split
      · simp [lnfp_isMeasuring, save_isMeasuring]
      · simp [appendLog, lnfp_isMeasuring, save_isMeasuring]
    · simp [appendLog, save_isMeasuring]
  · rfl

lemma psstep_isPreviewing (st : MCState) (env : SaveEnv) :
    (processingSaveStep st env).isPreviewing = st.isPreviewing := by
  simp only [processingSaveStep]
  split
  · split
    · split
      · simp [lnfp_isPreviewing, save_isPreviewing]
      · simp [appendLog, lnfp_isPreviewing, save_isPreviewing]
    · simp [appendLog, save_isPreviewing]
  · rfl

lemma psstep_isTesting (st : MCState) (env : SaveEnv) :
    (processingSaveStep st env).isTestingHardware = st.isTestingHardware := by
  simp only [processingSaveStep]
  split
  · split
    · split
      · simp [lnfp_isTesting, save_isTesting]
      · simp [appendLog, lnfp_isTesting, save_isTesting]
    · simp [appendLog, save_isTesting]
  · rfl

/-- C5 counterexample: from an idle configured state, startHardwareTest
raises isTestingHardware (a single active mode), and a subsequent
startLatencyMeasurement raises isMeasuringLatency without clearing
isTestingHardware, so two mode flags are active at once. -/
theorem claim_C5_counterexample :
    atMostOneMode readyState ∧
    atMostOneMode (startHardwareTest readyState) ∧
    (startHardwareTest readyState).isTestingHardware = true ∧
    (startLatencyMeasurement (startHardwareTest readyState)).isTestingHardware =
      true ∧
    (startLatencyMeasurement (startHardwareTest readyState)).isMeasuringLatency =
      true ∧
    ¬ atMostOneMode (startLatencyMeasurement (startHardwareTest readyState)) := by
  refine ⟨by decide, by decide, rfl, rfl, rfl, by decide⟩

/-- C5 (amended): mode exclusivity holds for operations performed from
Idle, but is not preserved under arbitrary interleaving because the start
operations do not clear the other mode flags.  From an Idle state (all four
flags false) every start operation and every timer block leaves at most one
mode flag raised, and from any state with at most one flag raised the stop
operations and the audio callback never raise a second flag. -/
theorem claim_C5_modeExclusivity (st : MCState) (env : FSEnv) (senv : SaveEnv)
    (input : AudioBuffer) (nOut nSamp : Nat)
    (hp : st.isProcessing = false) (hm : st.isMeasuringLatency = false)
    (hv : st.isPreviewing = false) (ht : st.isTestingHardware = false) :
    atMostOneMode (startProcessing st env) ∧
    atMostOneMode (startLatencyMeasurement st) ∧
    atMostOneMode (startPreview st) ∧
    atMostOneMode (startHardwareTest st) ∧
    atMostOneMode (previewLoadStep st) ∧
    atMostOneMode (processingSaveStep st senv) ∧
    atMostOneMode (latencyCompleteStep st) ∧
    (∀ st2 : MCState, atMostOneMode st2 →
      atMostOneMode (stopAllAudio st2) ∧
      atMostOneMode (stopPreview st2) ∧
      atMostOneMode (stopHardwareTest st2) ∧
      atMostOneMode (audioStep st2 input nOut nSamp)) := by
  refine ⟨?_, ?_, ?_, ?_, ?_, ?_, ?_, ?_⟩
  · simp only [startProcessing]
    split_ifs <;>
      simp [atMostOneMode, modeCount, appendLog, vof_isProcessing,
        vof_isMeasuring, vof_isPreviewing, vof_isTesting, lnfp_isProcessing,
        lnfp_isMeasuring, lnfp_isPreviewing, lnfp_isTesting, hp, hm, hv, ht]
  · simp only [startLatencyMeasurement]
    split_ifs <;> simp [atMostOneMode, modeCount, appendLog, hp, hm, hv, ht]
  · simp only [startPreview]
    split_ifs <;> simp [atMostOneMode, modeCount, appendLog, hp, hm, hv, ht]
  · simp only [startHardwareTest]
    split_ifs <;> simp [atMostOneMode, modeCount, appendLog, hp, hm, hv, ht]
  · have q1 := plstep_isProcessing st
    have q2 := plstep_isMeasuring st
    have q3 := plstep_isTesting st
    simp only [atMostOneMode, modeCount, q1, q2, q3, hp, hm, ht]
    cases hx : (previewLoadStep st).isPreviewing <;> simp
  · have q1 := psstep_isMeasuring st senv
    have q2 := psstep_isPreviewing st senv
    have q3 := psstep_isTesting st senv
    simp only [atMostOneMode, modeCount, q1, q2, q3, hm, hv, ht]
    cases hx : (processingSaveStep st senv).isProcessing <;> simp
  · simp only [latencyCompleteStep]
    split_ifs <;> simp [atMostOneMode, modeCount, appendLog, hp, hm, hv, ht]
  · intro st2 h2
    refine ⟨?_, ?_, ?_, ?_⟩
    · simp [stopAllAudio, appendLog, atMostOneMode, modeCount]
    · simp only [stopPreview, appendLog, atMostOneMode, modeCount] at h2 ⊢
      split_ifs at h2 ⊢ <;> first | omega | simp_all
    · simp only [stopHardwareTest, appendLog, atMostOneMode, modeCount] at h2 ⊢
      split_ifs at h2 ⊢ <;> first | omega | simp_all
    · simp only [audioStep]
      split_ifs with hA hB hC hD
      · have m1 := measuringStep_isProcessing st2 input nOut nSamp
        have m2 := measuringStep_isPreviewing st2 input nOut nSamp
        have m3 := measuringStep_isTesting st2 input nOut nSamp
        have m4 := measuringStep_isMeasuring_mono st2 input nOut nSamp
        simp only [atMostOneMode, modeCount, m1, m2, m3] at h2 ⊢
        split_ifs at h2 ⊢ <;> first | omega | simp_all
      · exact h2
      · have p1 := processingStep_isProcessing st2 input nOut nSamp
        have p2 := processingStep_isMeasuring st2 input nOut nSamp
        have p3 := processingStep_isPreviewing st2 input nOut nSamp
        have p4 := processingStep_isTesting st2 input nOut nSamp
        simp only [atMostOneMode, modeCount, p1, p2, p3, p4]
        exact h2
      · have v1 := previewStep_isProcessing st2 nOut nSamp
        have v2 := previewStep_isMeasuring st2 nOut nSamp
        have v3 := previewStep_isTesting st2 nOut nSamp
        have v4 := previewStep_isPreviewing_mono st2 nOut nSamp
        simp only [atMostOneMode, modeCount, v1, v2, v3] at h2 ⊢
        split_ifs at h2 ⊢ <;> first | omega | simp_all
      · exact h2

/-- Witness for C5 from the idle configured state. -/
theorem claim_C5_modeExclusivity_witness :
    (readyState.isProcessing = false ∧ readyState.isMeasuringLatency = false ∧
      readyState.isPreviewing = false ∧ readyState.isTestingHardware = false) ∧
    atMostOneMode (startLatencyMeasurement readyState) ∧
    atMostOneMode (startHardwareTest readyState) := by
  have h := claim_C5_modeExclusivity readyState (FSEnv.mk true true)
    (SaveEnv.mk true true true) (demoBuf 2 4) 2 4 rfl rfl rfl rfl
  exact ⟨⟨rfl, rfl, rfl, rfl⟩, h.2.1, h.2.2.2.1⟩

lemma captureWrite_numChannels (st : MCState) (input : AudioBuffer) (n : Nat) :
    (captureWrite st input n).numChannels = st.latencyCapture.numChannels := by
  simp only [captureWrite]; split_ifs <;> rfl

/-- C3 counterexample: a silent block advances the capture cursor to
exactly the capture-buffer length (equal to sampleRate * 5) with no peak
detected, yet the callback neither sets measuredLatencySamples = -1 nor
raises the completion flag - the code requires the cursor to strictly
exceed the length, so the failure fires only one block later. -/
theorem claim_C3_counterexample :
    awaitingState.capturedSamplesSinceImpulse + 2 =
      (awaitingState.latencyCapture.numSamples : Int) ∧
    awaitingState.capturedSamplesSinceImpulse + 2 =
      (awaitingState.sampleRate : Int) * 5 ∧
    findPeakPosition (captureWrite awaitingState zeroInput 2) (mkRat 1 2) = -1 ∧
    (audioStep awaitingState zeroInput 2 2).needsToCompleteLatencyMeasurement =
      false ∧
    (audioStep awaitingState zeroInput 2 2).measuredLatencySamples =
      awaitingState.measuredLatencySamples ∧
    (audioStep awaitingState zeroInput 2 2).isMeasuringLatency = true := by
  decide

/-- C3 (amended): in LatencyMeasuring mode after the impulse is sent, with a
stereo input present, the callback appends the block to the capture buffer
and advances the cursor; on detection it sets measuredLatencySamples =
peakFrame * channelCount (the capture buffer is stereo, channelCount = 2),
records the block-size config and raises the one-shot completion flag; with
no detection the failure result (-1 and the flag) is set when the cursor
strictly exceeds the capture length, and at or below the length nothing is
raised yet. -/
theorem claim_C3_latencyMeasurement (st : MCState) (input : AudioBuffer)
    (nOut nSamp : Nat)
    (hmode : st.isMeasuringLatency = true) (himp : st.impulseSent = true)
    (hin : 2 ≤ input.numChannels) (hip : st.hasInputPair = true)
    (hcap2 : st.latencyCapture.numChannels = 2) :
    ((0 : Int) ≤ findPeakPosition (captureWrite st input nSamp) (mkRat 1 2) →
      (audioStep st input nOut nSamp).measuredLatencySamples =
        findPeakPosition (captureWrite st input nSamp) (mkRat 1 2) *
          ((captureWrite st input nSamp).numChannels : Int) ∧
      (captureWrite st input nSamp).numChannels = 2 ∧
      (audioStep st input nOut nSamp).lastBufferSizeWhenMeasured =
        st.bufferSize ∧
      (audioStep st input nOut nSamp).needsToCompleteLatencyMeasurement = true ∧
      (audioStep st input nOut nSamp).isMeasuringLatency = false) ∧
    (findPeakPosition (captureWrite st input nSamp) (mkRat 1 2) < 0 →
      (st.sampleRate : Int) * 5 < st.capturedSamplesSinceImpulse + nSamp →
      (audioStep st input nOut nSamp).measuredLatencySamples = -1 ∧
      (audioStep st input nOut nSamp).needsToCompleteLatencyMeasurement = true ∧
      (audioStep st input nOut nSamp).isMeasuringLatency = false) ∧
    (findPeakPosition (captureWrite st input nSamp) (mkRat 1 2) < 0 →
      st.capturedSamplesSinceImpulse + nSamp ≤ (st.sampleRate : Int) * 5 →
      (audioStep st input nOut nSamp).needsToCompleteLatencyMeasurement =
        st.needsToCompleteLatencyMeasurement ∧
      (audioStep st input nOut nSamp).measuredLatencySamples =
        st.measuredLatencySamples ∧
      (audioStep st input nOut nSamp).isMeasuringLatency = true ∧
      (audioStep st input nOut nSamp).capturedSamplesSinceImpulse =
        st.capturedSamplesSinceImpulse + nSamp) := by
  have hstep : audioStep st input nOut nSamp =
      measuringStep st input nOut nSamp := by
    simp [audioStep, hmode]
  rw [hstep]
  simp only [measuringStep, himp, Bool.not_true, Bool.false_eq_true, if_false]
  rw [if_pos (And.intro hin hip)]
  refine ⟨?_, ?_, ?_⟩
  · intro hpk
    rw [if_pos hpk]
    refine ⟨rfl, ?_, rfl, rfl, rfl⟩
    rw [captureWrite_numChannels]
    exact hcap2
  · intro hpk hto
    rw [if_neg (not_le.mpr hpk), if_pos hto]
    exact ⟨rfl, rfl, rfl⟩
  · intro hpk hto
    rw [if_neg (not_le.mpr hpk), if_neg (not_lt.mpr hto)]
    exact ⟨rfl, rfl, hmode, rfl⟩

/-- Witness for C3: the returned impulse is detected at frame 0 and the
success results are recorded. -/
theorem claim_C3_latencyMeasurement_witness :
    (awaitingFresh.isMeasuringLatency = true ∧ awaitingFresh.impulseSent = true ∧
      2 ≤ impulseInput.numChannels ∧ awaitingFresh.hasInputPair = true ∧
      awaitingFresh.latencyCapture.numChannels = 2) ∧
    (0 : Int) ≤ findPeakPosition (captureWrite awaitingFresh impulseInput 2)
      (mkRat 1 2) ∧
    (audioStep awaitingFresh impulseInput 2 2).measuredLatencySamples =
      findPeakPosition (captureWrite awaitingFresh impulseInput 2) (mkRat 1 2) * 2 ∧
    (audioStep awaitingFresh impulseInput 2 2).needsToCompleteLatencyMeasurement =
      true ∧
    (audioStep awaitingFresh impulseInput 2 2).isMeasuringLatency = false := by
  have h := claim_C3_latencyMeasurement awaitingFresh impulseInput 2 2
    rfl rfl (by decide) rfl rfl
  have hpk : (0 : Int) ≤
      findPeakPosition (captureWrite awaitingFresh impulseInput 2) (mkRat 1 2) := by
    decide
  obtain ⟨e1, e2, _, e4, e5⟩ := h.1 hpk
  refine ⟨⟨rfl, rfl, by decide, rfl, rfl⟩, hpk, ?_, e4, e5⟩
  rw [e1, e2]
  norm_num

lemma audioStep_processing (st : MCState) (input : AudioBuffer) (nOut n : Nat)
    (hm : st.isMeasuringLatency = false) (ht : st.isTestingHardware = false)
    (hp : st.isProcessing = true) :
    audioStep st input nOut n = processingStep st input nOut n := by
  simp [audioStep, hm, ht, hp]

lemma processingStep_gap (st : MCState) (input : AudioBuffer) (nOut n : Nat)
    (hch : 2 ≤ nOut) (hin : 2 ≤ input.numChannels)
    (hop : st.hasOutputPair = true) (hipr : st.hasInputPair = true)
    (hgap : st.isInProcessingGap = true) :
    (processingStep st input nOut n).processingGapSamplesRemaining =
      st.processingGapSamplesRemaining -
        min (n : Int) st.processingGapSamplesRemaining ∧
    (processingStep st input nOut n).isInProcessingGap =
      (if st.processingGapSamplesRemaining -
          min (n : Int) st.processingGapSamplesRemaining ≤ 0 then false
        else true) ∧
    (processingStep st input nOut n).needsToSaveCurrentFile =
      (if st.processingGapSamplesRemaining -
          min (n : Int) st.processingGapSamplesRemaining ≤ 0 then true
        else st.needsToSaveCurrentFile) ∧
    (processingStep st input nOut n).isProcessing = st.isProcessing ∧
    (processingStep st input nOut n).isMeasuringLatency =
      st.isMeasuringLatency ∧
    (processingStep st input nOut n).isTestingHardware = st.isTestingHardware ∧
    (processingStep st input nOut n).hasOutputPair = st.hasOutputPair ∧
    (processingStep st input nOut n).hasInputPair = st.hasInputPair := by
  simp only [processingStep]
  rw [if_pos (And.intro hch (And.intro hin (And.intro hop hipr))), if_pos hgap]
  split_ifs with hg
  · exact ⟨rfl, rfl, rfl, rfl, rfl, rfl, rfl, rfl⟩
  · exact ⟨rfl, hgap, rfl, rfl, rfl, rfl, rfl, rfl⟩

lemma gapRunFires (input : AudioBuffer) (nOut : Nat)
    (hch : 2 ≤ nOut) (hin : 2 ≤ input.numChannels) :
    ∀ (blocks : List Nat) (st : MCState),
      st.isMeasuringLatency = false → st.isTestingHardware = false →
      st.isProcessing = true → st.hasOutputPair = true →
      st.hasInputPair = true → st.isInProcessingGap = true →
      st.needsToSaveCurrentFile = false →
      0 < st.processingGapSamplesRemaining →
      (∀ n ∈ blocks, 1 ≤ n) →
      (∀ k, k < blocks.length →
        ((blocks.take k).sum : Int) < st.processingGapSamplesRemaining) →
      st.processingGapSamplesRemaining ≤ (blocks.sum : Int) →
      (∀ k, k < blocks.length →
        (audioRun input nOut st (blocks.take k)).isInProcessingGap = true ∧
        (audioRun input nOut st (blocks.take k)).needsToSaveCurrentFile =
          false ∧
        (audioRun input nOut st (blocks.take k)).processingGapSamplesRemaining =
          st.processingGapSamplesRemaining - ((blocks.take k).sum : Int)) ∧
      (audioRun input nOut st blocks).needsToSaveCurrentFile = true ∧
      (audioRun input nOut st blocks).isInProcessingGap = false ∧
      (audioRun input nOut st blocks).processingGapSamplesRemaining = 0 := by
  intro blocks
  induction blocks with
  | nil =>
    intro st _ _ _ _ _ _ _ hr _ _ hall
    exfalso
    simp at hall
    omega
  | cons n rest ih =>
    intro st hm ht hp hop hipr hgap hsave hr hpos hpre hall
    have hstep : audioStep st input nOut n = processingStep st input nOut n :=
      audioStep_processing st input nOut n hm ht hp
    obtain ⟨g1, g2, g3, g4, g5, g6, g7, g8⟩ :=
      processingStep_gap st input nOut n hch hin hop hipr hgap
    by_cases hlast : st.processingGapSamplesRemaining ≤ (n : Int)
    · have hrest : rest = [] := by
        cases rest with
        | nil => rfl
        | cons m ms =>
          exfalso
          have h1 := hpre 1 (by simp)
          simp at h1
          omega
      subst hrest
      have hmin : min (n : Int) st.processingGapSamplesRemaining =
          st.processingGapSamplesRemaining := min_eq_right hlast
      refine ⟨?_, ?_, ?_, ?_⟩
      · intro k hk
        have hk0 : k = 0 := by simpa using hk
        subst hk0
        exact ⟨hgap, hsave, by simp [audioRun]⟩
      · show (audioRun input nOut (audioStep st input nOut n)
          []).needsToSaveCurrentFile = true
        simp only [audioRun, hstep]
        rw [g3, hmin]
        simp
      · show (audioRun input nOut (audioStep st input nOut n)
          []).isInProcessingGap = false
        simp only [audioRun, hstep]
        rw [g2, hmin]
        simp
      · show (audioRun input nOut (audioStep st input nOut n)
          []).processingGapSamplesRemaining = 0
        simp only [audioRun, hstep]
        rw [g1, hmin]
        simp
    · push_neg at hlast
      have hmin : min (n : Int) st.processingGapSamplesRemaining = (n : Int) :=
        min_eq_left hlast.le
      have f1 : (audioStep st input nOut n).processingGapSamplesRemaining =
          st.processingGapSamplesRemaining - (n : Int) := by
        rw [hstep, g1, hmin]
      have f2 : (audioStep st input nOut n).isInProcessingGap = true := by
        rw [hstep, g2, hmin, if_neg (by omega)]
      have f3 : (audioStep st input nOut n).needsToSaveCurrentFile = false := by
        rw [hstep, g3, hmin, if_neg (by omega)]
        exact hsave
      have f4 : (audioStep st input nOut n).isProcessing = true := by
        rw [hstep, g4]; exact hp
      have f5 : (audioStep st input nOut n).isMeasuringLatency = false := by
        rw [hstep, g5]; exact hm
      have f6 : (audioStep st input nOut n).isTestingHardware = false := by
        rw [hstep, g6]; exact ht
      have f7 : (audioStep st input nOut n).hasOutputPair = true := by
        rw [hstep, g7]; exact hop
      have f8 : (audioStep st input nOut n).hasInputPair = true := by
        rw [hstep, g8]; exact hipr
      have hr1 : 0 < (audioStep st input nOut n).processingGapSamplesRemaining := by
        rw [f1]; omega
      have hpos1 : ∀ m ∈ rest, 1 ≤ m :=
        fun m hm1 => hpos m (List.mem_cons_of_mem _ hm1)
      have hpre1 : ∀ k, k < rest.length →
          ((rest.take k).sum : Int) <
            (audioStep st input nOut n).processingGapSamplesRemaining := by
        intro k hk
        have h1 := hpre (k + 1) (by simpa using Nat.succ_lt_succ hk)
        rw [List.take_succ_cons, List.sum_cons] at h1
        rw [f1]
        push_cast at h1 ⊢
        omega
      have hall1 : (audioStep st input nOut n).processingGapSamplesRemaining ≤
          (rest.sum : Int) := by
        rw [List.sum_cons] at hall
        rw [f1]
        push_cast at hall ⊢
        omega
      obtain ⟨IH1, IH2, IH3, IH4⟩ :=
        ih (audioStep st input nOut n) f5 f6 f4 f7 f8 f2 f3 hr1 hpos1 hpre1 hall1
      have hcons : ∀ l : List Nat, audioRun input nOut st (n :: l) =
          audioRun input nOut (audioStep st input nOut n) l := fun _ => rfl
      refine ⟨?_, ?_, ?_, ?_⟩
      · intro k hk
        cases k with
        | zero => exact ⟨hgap, hsave, by simp [audioRun]⟩
        | succ j =>
          have hj : j < rest.length := by simpa using hk
          rw [List.take_succ_cons, hcons]
          obtain ⟨a1, a2, a3⟩ := IH1 j hj
          refine ⟨a1, a2, ?_⟩
          rw [a3, f1, List.sum_cons]
          push_cast
          ring
      · rw [hcons]; exact IH2
      · rw [hcons]; exact IH3
      · rw [hcons]; exact IH4

/-- C7: with silenceBetweenFilesMs = 150 and sampleRate = 44100 the gap
counter initializes to floor(150/1000 * 44100) = 6615 when the recording
cursor reaches the target; across the subsequent callbacks the counter
equals 6615 minus the cumulative block lengths (hence non-negative and
monotonically decreasing for positive blocks), stays positive and the
take-finished flag stays down strictly before the cumulative block lengths
reach 6615, and the flag is raised (exactly once, the gap being left) at
the first callback where they reach 6615. -/
theorem claim_C7_gapCountdown (st : MCState) (input : AudioBuffer)
    (nOut : Nat) (blocks : List Nat)
    (hsil : st.silenceBetweenFilesMs = 150) (hrate : st.sampleRate = 44100)
    (hm : st.isMeasuringLatency = false) (ht : st.isTestingHardware = false)
    (hp : st.isProcessing = true)
    (hch : 2 ≤ nOut) (hin : 2 ≤ input.numChannels)
    (hop : st.hasOutputPair = true) (hipr : st.hasInputPair = true)
    (hgap : st.isInProcessingGap = true)
    (hrem : st.processingGapSamplesRemaining = 6615)
    (hsave : st.needsToSaveCurrentFile = false)
    (hpos : ∀ n ∈ blocks, 1 ≤ n)
    (hpre : ∀ k, k < blocks.length → ((blocks.take k).sum : Int) < 6615)
    (hall : (6615 : Int) ≤ (blocks.sum : Int)) :
    gapInitSamples st = 6615 ∧
    (∀ (st0 : MCState) (n0 : Nat),
      st0.silenceBetweenFilesMs = 150 → st0.sampleRate = 44100 →
      st0.isMeasuringLatency = false → st0.isTestingHardware = false →
      st0.isProcessing = true → st0.isInProcessingGap = false →
      st0.hasOutputPair = true → st0.hasInputPair = true →
      st0.targetRecordingSamples ≤ recordAdvance st0 input n0 →
      (audioStep st0 input nOut n0).isInProcessingGap = true ∧
      (audioStep st0 input nOut n0).processingGapSamplesRemaining = 6615 ∧
      (audioStep st0 input nOut n0).needsToSaveCurrentFile =
        st0.needsToSaveCurrentFile) ∧
    (∀ k, k < blocks.length →
      (audioRun input nOut st (blocks.take k)).isInProcessingGap = true ∧
      (audioRun input nOut st (blocks.take k)).needsToSaveCurrentFile = false ∧
      (audioRun input nOut st (blocks.take k)).processingGapSamplesRemaining =
        6615 - ((blocks.take k).sum : Int) ∧
      0 < (audioRun input nOut st (blocks.take k)).processingGapSamplesRemaining) ∧
    (audioRun input nOut st blocks).needsToSaveCurrentFile = true ∧
    (audioRun input nOut st blocks).isInProcessingGap = false ∧
    (audioRun input nOut st blocks).processingGapSamplesRemaining = 0 := by
  have hginit : gapInitSamples st = 6615 := by
    simp only [gapInitSamples, hsil, hrate]
    decide
  have hmaster := gapRunFires input nOut hch hin blocks st hm ht hp hop hipr
    hgap hsave (by rw [hrem]; norm_num) hpos
    (by intro k hk; rw [hrem]; exact hpre k hk) (by rw [hrem]; exact hall)
  obtain ⟨hinter, hfire1, hfire2, hfire3⟩ := hmaster
  refine ⟨hginit, ?_, ?_, hfire1, hfire2, hfire3⟩
  · intro st0 n0 hsil0 hrate0 hm0 ht0 hp0 hgap0 hop0 hip0 hreach
    have hstep : audioStep st0 input nOut n0 = processingStep st0 input nOut n0 :=
      audioStep_processing st0 input nOut n0 hm0 ht0 hp0
    have hginit0 : gapInitSamples st0 = 6615 := by
      simp only [gapInitSamples, hsil0, hrate0]
      decide
    rw [hstep]
    simp only [processingStep]
    rw [if_pos (And.intro hch (And.intro hin (And.intro hop0 hip0)))]
    rw [if_neg (by simp [hgap0])]
    rw [if_pos hreach, if_neg (by rw [hginit0]; norm_num)]
    exact ⟨rfl, by rw [hginit0], rfl⟩
  · intro k hk
    obtain ⟨a1, a2, a3⟩ := hinter k hk
    rw [hrem] at a3
    have := hpre k hk
    exact ⟨a1, a2, a3, by omega⟩

/-- Witness for C7 on the block sequence 4000, 3000: the flag is down after
the first block (cumulative 4000 < 6615) and fires at the second
(cumulative 7000 >= 6615). -/
theorem claim_C7_gapCountdown_witness :
    (gapState.silenceBetweenFilesMs = 150 ∧ gapState.sampleRate = 44100 ∧
      gapState.isInProcessingGap = true ∧
      gapState.processingGapSamplesRemaining = 6615 ∧
      (∀ n ∈ [4000, 3000], 1 ≤ n) ∧
      (∀ k, k < ([4000, 3000] : List Nat).length →
        ((([4000, 3000] : List Nat).take k).sum : Int) < 6615) ∧
      (6615 : Int) ≤ (([4000, 3000] : List Nat).sum : Int)) ∧
    gapInitSamples gapState = 6615 ∧
    (audioRun (demoBuf 2 4096) 2 gapState [4000, 3000]).needsToSaveCurrentFile =
      true ∧
    (audioRun (demoBuf 2 4096) 2 gapState [4000, 3000]).isInProcessingGap =
      false ∧
    (audioRun (demoBuf 2 4096) 2 gapState
      [4000, 3000]).processingGapSamplesRemaining = 0 := by
  have h := claim_C7_gapCountdown gapState (demoBuf 2 4096) 2 [4000, 3000]
    rfl rfl rfl rfl rfl (by norm_num) (by decide) rfl rfl rfl rfl rfl
    (by decide) (by decide) (by decide)
  exact ⟨⟨rfl, rfl, rfl, rfl, by decide, by decide, by decide⟩,
    h.1, h.2.2.2.1, h.2.2.2.2.1, h.2.2.2.2.2⟩

end F9

